import Mathlib

/-!
A shallow embedding of the stor-go-client library (Go) in Lean 4: the
request construction and error mapping core, together with the per
operation request builders and response handlers, translated from the
newest revision of each source file.

Modelling conventions:
- JSON bodies are modelled at the level of a JSON syntax tree; a raw
  byte body that the Go standard library fails to parse is modelled as
  the value `none : Option Json`.
- Go struct decoding via encoding/json is translated field by field:
  a missing field or a JSON null leaves the zero value, a field of the
  wrong JSON type makes the whole decode fail, and keys are matched
  case insensitively (ASCII suffices for the keys this client uses).
- time.Time fields are modelled as their RFC3339 strings.
- Machine integers (Go int, int64) are modelled as Int; status codes,
  which are nonnegative, as Nat.
-/

namespace StorClient

/-- JSON values as exchanged with the STOR service. The numeric payloads
of this client are integers, so numbers are modelled as Int. -/
inductive Json where
  | null
  | bool (b : Bool)
  | num (n : Int)
  | str (s : String)
  | arr (elems : List Json)
  | obj (fields : List (String × Json))
  deriving Inhabited

/-- The closed set of domain errors of the client, plus the two generic
shapes it builds with fmt.Errorf: a status carrying error and a local
decode error. The first five correspond to the package level error values
ErrInvalidCredentials, ErrObjectNotFound, ErrArchiveNotFound,
ErrBucketNotEmpty and ErrNoSuchBucket. -/
inductive StorError where
  | invalidCredentials
  | objectNotFound
  | archiveNotFound
  | bucketNotEmpty
  | noSuchBucket
  | statusError (msg : String) (status : Nat)
  | decodeError (msg : String)
  deriving Repr, DecidableEq, Inhabited

/-- ErrorResponse from the error mapping file: the structured error body
with fields tagged json:code and json:message. -/
structure ErrorResponse where
  Code : String
  Message : String
  deriving Repr, DecidableEq, Inhabited

/-- ASCII lowercase of one character, the fold the Go json decoder
applies to the ASCII keys of this client. -/
def asciiLower (c : Char) : Char :=
  if 65 ≤ c.toNat && c.toNat ≤ 90 then Char.ofNat (c.toNat + 32) else c

/-- ASCII lowercase of a string. -/
def strLower (s : String) : String := ⟨s.toList.map asciiLower⟩

/-- Field lookup as the Go json decoder performs it: keys are matched
case insensitively and, with duplicate keys, the last occurrence wins. -/
def jLookup (fields : List (String × Json)) (key : String) : Option Json :=
  ((fields.filter (fun p => strLower p.1 = strLower key)).getLast?).map (fun p => p.2)

/-- Decode a JSON field into a Go string field: absent or null keeps the
zero value, a JSON string is taken verbatim, anything else is a decode
error. -/
def strField (fields : List (String × Json)) (key : String) : Option String :=
  match jLookup fields key with
  | none => some ""
  | some (Json.str s) => some s
  | some Json.null => some ""
  | some _ => none

/-- Decode a JSON field into a Go bool field. -/
def boolField (fields : List (String × Json)) (key : String) : Option Bool :=
  match jLookup fields key with
  | none => some false
  | some (Json.bool b) => some b
  | some Json.null => some false
  | some _ => none

/-- Decode a JSON field into a Go integer field. -/
def intField (fields : List (String × Json)) (key : String) : Option Int :=
  match jLookup fields key with
  | none => some 0
  | some (Json.num n) => some n
  | some Json.null => some 0
  | some _ => none

/-- Go json.Unmarshal of a body into ErrorResponse: the top level value
must be an object (or null, which keeps the zero value); the code and
message fields must be strings when present. -/
def unmarshalErrorResponse : Json → Option ErrorResponse
  | Json.obj fields => do
      let code ← strField fields "code"
      let message ← strField fields "message"
      pure ⟨code, message⟩
  | Json.null => some ⟨"", ""⟩
  | _ => none

/-- mapErrorResponse from the error mapping file (newest revision): decode
the body as an ErrorResponse and switch on its code. A body that fails to
parse or to decode yields (none, false), as does any unrecognized code. -/
def mapErrorResponse (body : Option Json) : Option StorError × Bool :=
  match body.bind unmarshalErrorResponse with
  | none => (none, false)
  | some er =>
    if er.Code = "InvalidCredentials" then (some StorError.invalidCredentials, true)
    else if er.Code = "NoSuchArchive" then (some StorError.archiveNotFound, true)
    else if er.Code = "NoSuchBucket" then (some StorError.noSuchBucket, true)
    else if er.Code = "BucketNotEmpty" then (some StorError.bucketNotEmpty, true)
    else (none, false)

/-- Decimal digit to character. -/
def digitChar (n : Nat) : Char := Char.ofNat (48 + n)

/-- Digits of a positive number, most significant first. The first argument
is fuel; n itself is always enough fuel for its own digits. -/
def natDigitsAux : Nat → Nat → List Char
  | 0, _ => []
  | _ + 1, 0 => []
  | fuel + 1, n + 1 => natDigitsAux fuel ((n + 1) / 10) ++ [digitChar ((n + 1) % 10)]

/-- Decimal rendering of a Nat, as Go strconv.Itoa renders nonnegative ints. -/
def itoaNat (n : Nat) : String := ⟨if n = 0 then ['0'] else natDigitsAux n n⟩

/-- Go strconv.Itoa: decimal rendering with a leading minus sign when negative. -/
def itoa (i : Int) : String :=
  if i < 0 then "-" ++ itoaNat i.natAbs else itoaNat i.natAbs

/-- Uppercase hexadecimal digit, as the Go url package emits in escapes. -/
def hexUpperDigit (n : Nat) : Char :=
  if n < 10 then Char.ofNat (48 + n) else Char.ofNat (55 + n)

/-- The UTF-8 bytes of a character, as byte values. -/
def utf8Bytes (c : Char) : List Nat :=
  let n := c.toNat
  if n < 128 then [n]
  else if n < 2048 then [192 + n / 64, 128 + n % 64]
  else if n < 65536 then [224 + n / 4096, 128 + (n / 64) % 64, 128 + n % 64]
  else [240 + n / 262144, 128 + (n / 4096) % 64, 128 + (n / 64) % 64, 128 + n % 64]

/-- Percent escape of one byte: a percent sign and two uppercase hex digits. -/
def percentByte (b : Nat) : List Char :=
  ['%', hexUpperDigit (b / 16), hexUpperDigit (b % 16)]

/-- The characters Go url.QueryEscape leaves unescaped: ASCII alphanumerics
and the four unreserved marks. -/
def isUnreserved (c : Char) : Bool :=
  (65 ≤ c.toNat && c.toNat ≤ 90) || (97 ≤ c.toNat && c.toNat ≤ 122) ||
  (48 ≤ c.toNat && c.toNat ≤ 57) || c = '-' || c = '_' || c = '.' || c = '~'

/-- One character under Go url.QueryEscape: space becomes a plus sign,
unreserved characters stay, everything else is escaped byte by byte. -/
def escapeChar (c : Char) : List Char :=
  if c = ' ' then ['+']
  else if isUnreserved c then [c]
  else ((utf8Bytes c).map percentByte).flatten

/-- Go url.QueryEscape over a whole string. -/
def queryEscape (s : String) : String := ⟨(s.toList.map escapeChar).flatten⟩

/-- Bytewise comparison of two character lists, the order Go string
comparison induces (UTF-8 byte order agrees with code point order). -/
def charListLe : List Char → List Char → Bool
  | [], _ => true
  | _ :: _, [] => false
  | a :: as, b :: bs =>
    if a.toNat < b.toNat then true
    else if b.toNat < a.toNat then false
    else charListLe as bs

/-- Go string comparison, less or equal. -/
def strLe (a b : String) : Bool := charListLe a.toList b.toList

/-- Stable insertion of a pair into a list sorted by key. -/
def orderedInsertPair (p : String × String) :
    List (String × String) → List (String × String)
  | [] => [p]
  | q :: qs => if strLe p.1 q.1 then p :: q :: qs else q :: orderedInsertPair p qs

/-- Stable insertion sort of key value pairs by key. -/
def sortPairs : List (String × String) → List (String × String)
  | [] => []
  | p :: ps => orderedInsertPair p (sortPairs ps)

/-- Go url.Values.Encode: pairs sorted by key, each rendered as
escaped key, equals sign, escaped value, joined with ampersands. The
operations of this client give every key a single value, so a stable sort
of the pairs by key matches the Go grouping of values under sorted keys. -/
def encodeQuery (q : List (String × String)) : String :=
  String.intercalate "&"
    ((sortPairs q).map (fun p => queryEscape p.1 ++ "=" ++ queryEscape p.2))

/-- The body a request descriptor carries: an opaque caller supplied
stream, or bytes that the operation marshalled from a JSON value. -/
inductive ReqBody where
  | stream (id : Nat)
  | jsonBody (j : Json)
  deriving Inhabited

/-- The request descriptor R from the client file: method (empty means
GET), path, query parameters, optional content type and length, optional
body and optional extra header set. -/
structure R where
  method : String := ""
  path : String := ""
  query : List (String × String) := []
  contentType : String := ""
  contentLength : Int := 0
  body : Option ReqBody := none
  header : List (String × String) := []
  deriving Inhabited

/-- Nanoseconds, the unit of the Go time.Duration type. -/
def second : Int := 1000000000

/-- The mutable state shared by all http.Client values of the process:
each handle maps to the current value of the Timeout field of the
http.Client it names. -/
def HttpWorld : Type := Nat → Int

/-- The handle naming the process wide shared http.DefaultClient. -/
def defaultClientHandle : Nat := 0

/-- ClientOptions from the client file. HTTPCLient (spelled as in the
source) is a handle to a shared mutable http.Client. -/
structure ClientOptions where
  Host : String
  ApiKey : String
  HTTPCLient : Nat
  Timeout : Option Int
  deriving Inhabited

/-- NewClientOptions from the client file: fresh options whose HTTP client
is the process wide shared default client. -/
def NewClientOptions : ClientOptions :=
  { Host := "", ApiKey := "", HTTPCLient := defaultClientHandle, Timeout := none }

/-- The connected client: HTTP client handle, host, and the precomputed
Authorization header value. -/
structure Client where
  httpClient : Nat
  host : String
  auth : String
  deriving Inhabited

/-- NewClient from the client file: takes the first element of the variadic
options, or fresh default options; then writes the Timeout field of the
http.Client named by the options handle, to the configured timeout or to
30 seconds. The returned world carries that write. -/
def NewClient (opts : List ClientOptions) (w : HttpWorld) : Client × HttpWorld :=
  let opt := match opts with
    | o :: _ => o
    | [] => NewClientOptions
  let client : Client :=
    { host := opt.Host, auth := "Bearer " ++ opt.ApiKey, httpClient := opt.HTTPCLient }
  let w1 : HttpWorld := fun h =>
    if h = opt.HTTPCLient then
      match opt.Timeout with
      | some t => t
      | none => 30 * second
    else w h
  (client, w1)

/-- The outgoing HTTP request built by createReq. Headers are a list in
insertion order; Header.Add appends a pair. -/
structure HttpRequest where
  method : String
  url : String
  headers : List (String × String)
  body : Option ReqBody
  deriving Inhabited

/-- createReq from the client file: default the method to GET, build the
URL as host, slash, path, appending a question mark and the encoded query
when the query has at least one parameter; always add the Authorization
header, add Content-Type and Content-Length when the descriptor sets
them, then append the extra header set verbatim. Failure of the Go
request constructor on an invalid method or URL is not modelled. -/
def createReq (c : Client) (r : R) : HttpRequest :=
  let method := if r.method = "" then "GET" else r.method
  let u0 := c.host ++ "/" ++ r.path
  let u := if r.query.length > 0 then u0 ++ "?" ++ encodeQuery r.query else u0
  { method := method
    url := u
    headers :=
      [("Authorization", c.auth)] ++
      (if r.contentType ≠ "" then [("Content-Type", r.contentType)] else []) ++
      (if r.contentLength ≠ 0 then [("Content-Length", itoa r.contentLength)] else []) ++
      r.header
    body := r.body }

/-- The raw response the executor hands back: status, headers, content
length, a handle to the open body stream, and the buffered body parsed as
JSON (none when the bytes are not valid JSON). -/
structure RawResponse where
  status : Nat
  headers : List (String × String)
  contentLength : Int
  streamId : Nat
  body : Option Json
  deriving Inhabited

/-- Go http.Header.Get: the first value stored under the key, or the
empty string when the key is absent. -/
def headerGet (hs : List (String × String)) (key : String) : String :=
  match hs.find? (fun p => p.1 = key) with
  | some p => p.2
  | none => ""

/-- Decode a JSON field into a Go pointer to string: absent or null is
nil, a string is taken, anything else is a decode error. -/
def optStrField (fields : List (String × Json)) (key : String) : Option (Option String) :=
  match jLookup fields key with
  | none => some none
  | some Json.null => some none
  | some (Json.str s) => some (some s)
  | some _ => none

/-- Decode a JSON array (or null, the nil slice) elementwise. -/
def decodeList {α : Type} (dec : Json → Option α) : Json → Option (List α)
  | Json.arr es => es.mapM dec
  | Json.null => some []
  | _ => none

/-- Bucket from the bucket file (newest revision): name, object count,
total size, creation time. -/
structure Bucket where
  Name : String
  Objects : Int
  Size : Int
  CreatedAt : String
  deriving Repr, DecidableEq, Inhabited

/-- Go json.Unmarshal of one bucket object. -/
def unmarshalBucket : Json → Option Bucket
  | Json.obj fields => do
      let name ← strField fields "name"
      let objects ← intField fields "objects"
      let size ← intField fields "size"
      let createdAt ← strField fields "createdAt"
      pure ⟨name, objects, size, createdAt⟩
  | Json.null => some default
  | _ => none

/-- ListBucketsResult from the bucket file. -/
structure ListBucketsResult where
  Buckets : List Bucket
  IsTruncated : Bool
  deriving Repr, DecidableEq, Inhabited

/-- Go json.Unmarshal of the bucket listing body. -/
def unmarshalListBucketsResult (body : Option Json) : Option ListBucketsResult :=
  match body with
  | some (Json.obj fields) => do
      let buckets ←
        match jLookup fields "buckets" with
        | none => some []
        | some j => decodeList unmarshalBucket j
      let isTruncated ← boolField fields "isTruncated"
      pure ⟨buckets, isTruncated⟩
  | some Json.null => some default
  | _ => none

/-- Object from the object file. -/
structure Object where
  Key : String
  ContentType : String
  Size : Int
  CreatedAt : String
  deriving Repr, DecidableEq, Inhabited

/-- Go json.Unmarshal of one object record. -/
def unmarshalObject : Json → Option Object
  | Json.obj fields => do
      let key ← strField fields "key"
      let contentType ← strField fields "contentType"
      let size ← intField fields "size"
      let createdAt ← strField fields "createdAt"
      pure ⟨key, contentType, size, createdAt⟩
  | Json.null => some default
  | _ => none

/-- ObjectReference from the object file: a single key. -/
structure ObjectReference where
  Key : String
  deriving Repr, DecidableEq, Inhabited

/-- Error from the object file: the per item error of a bulk delete.
Its Go fields carry no json tags, so the decoder matches the field names
case insensitively. -/
structure Error where
  Code : String
  Message : String
  deriving Repr, DecidableEq, Inhabited

/-- Go json.Unmarshal of one per item error object. -/
def unmarshalError : Json → Option Error
  | Json.obj fields => do
      let code ← strField fields "Code"
      let message ← strField fields "Message"
      pure ⟨code, message⟩
  | Json.null => some default
  | _ => none

/-- DeleteResult from the object file: one per item outcome of a bulk
delete, with the key, the deleted flag and an optional error. -/
structure DeleteResult where
  Key : String
  Deleted : Bool
  Error : Option Error
  deriving Repr, DecidableEq, Inhabited

/-- Go json.Unmarshal of one per item outcome. The Error field is a
pointer: absent or null decodes to nil. -/
def unmarshalDeleteResult : Json → Option DeleteResult
  | Json.obj fields => do
      let key ← strField fields "key"
      let deleted ← boolField fields "deleted"
      let err ←
        match jLookup fields "error" with
        | none => some none
        | some Json.null => some none
        | some j => (unmarshalError j).map some
      pure ⟨key, deleted, err⟩
  | Json.null => some default
  | _ => none

/-- DeleteObjectsResult from the object file. -/
structure DeleteObjectsResult where
  Results : List DeleteResult
  deriving Repr, DecidableEq, Inhabited

/-- Go json.Unmarshal of the bulk delete response body. -/
def unmarshalDeleteObjectsResult (body : Option Json) : Option DeleteObjectsResult :=
  match body with
  | some (Json.obj fields) => do
      let results ←
        match jLookup fields "results" with
        | none => some []
        | some j => decodeList unmarshalDeleteResult j
      pure ⟨results⟩
  | some Json.null => some default
  | _ => none

/-- ListObjectsResult from the object file. -/
structure ListObjectsResult where
  IsTruncated : Bool
  Objects : List Object
  Name : String
  MaxKeys : Int
  KeyCount : Int
  StartAfter : Option String
  CommonPrefixes : List String
  deriving Repr, DecidableEq, Inhabited

/-- Go json.Unmarshal of the object listing body. -/
def unmarshalListObjectsResult (body : Option Json) : Option ListObjectsResult :=
  match body with
  | some (Json.obj fields) => do
      let isTruncated ← boolField fields "isTruncated"
      let objects ←
        match jLookup fields "objects" with
        | none => some []
        | some j => decodeList unmarshalObject j
      let name ← strField fields "name"
      let maxKeys ← intField fields "maxKeys"
      let keyCount ← intField fields "keyCount"
      let startAfter ← optStrField fields "startAfter"
      let commonPrefixes ←
        match jLookup fields "commonPrefixes" with
        | none => some []
        | some j =>
            decodeList
              (fun e =>
                match e with
                | Json.str s => some s
                | Json.null => some ""
                | _ => none) j
      pure ⟨isTruncated, objects, name, maxKeys, keyCount, startAfter, commonPrefixes⟩
  | some Json.null => some default
  | _ => none

/-- CreateMultipartUploadResult from the object file; its Go fields carry
no json tags. -/
structure CreateMultipartUploadResult where
  Bucket : String
  Key : String
  UploadId : String
  deriving Repr, DecidableEq, Inhabited

/-- Go json.Unmarshal of the multipart creation body. -/
def unmarshalCreateMultipartUploadResult (body : Option Json) : Option CreateMultipartUploadResult :=
  match body with
  | some (Json.obj fields) => do
      let bucket ← strField fields "Bucket"
      let key ← strField fields "Key"
      let uploadId ← strField fields "UploadId"
      pure ⟨bucket, key, uploadId⟩
  | some Json.null => some default
  | _ => none

/-- CompleteMultipartUploadResult from the object file. -/
structure CompleteMultipartUploadResult where
  Bucket : String
  Key : String
  ETag : String
  deriving Repr, DecidableEq, Inhabited

/-- Go json.Unmarshal of the multipart completion body. -/
def unmarshalCompleteMultipartUploadResult (body : Option Json) : Option CompleteMultipartUploadResult :=
  match body with
  | some (Json.obj fields) => do
      let bucket ← strField fields "bucket"
      let key ← strField fields "key"
      let etag ← strField fields "etag"
      pure ⟨bucket, key, etag⟩
  | some Json.null => some default
  | _ => none

/-- CreateNonceResult from the nonce file. -/
structure CreateNonceResult where
  Nonce : String
  ExpiresAt : String
  deriving Repr, DecidableEq, Inhabited

/-- Go json.Unmarshal of the nonce creation body. -/
def unmarshalCreateNonceResult (body : Option Json) : Option CreateNonceResult :=
  match body with
  | some (Json.obj fields) => do
      let nonce ← strField fields "nonce"
      let expiresAt ← strField fields "expiresAt"
      pure ⟨nonce, expiresAt⟩
  | some Json.null => some default
  | _ => none

/-- CreateArchiveResult from the archive file; its Go fields carry no
json tags. -/
structure CreateArchiveResult where
  Bucket : String
  Key : String
  ArchiveId : String
  deriving Repr, DecidableEq, Inhabited

/-- Go json.Unmarshal of the archive creation body. -/
def unmarshalCreateArchiveResult (body : Option Json) : Option CreateArchiveResult :=
  match body with
  | some (Json.obj fields) => do
      let bucket ← strField fields "Bucket"
      let key ← strField fields "Key"
      let archiveId ← strField fields "ArchiveId"
      pure ⟨bucket, key, archiveId⟩
  | some Json.null => some default
  | _ => none

/-- GetArchiveResult from the archive file. ArchiveType models the Go
field named Type, a name Lean reserves. -/
structure GetArchiveResult where
  ID : String
  State : String
  ArchiveType : String
  deriving Repr, DecidableEq, Inhabited

/-- Go json.Unmarshal of the archive status body. -/
def unmarshalGetArchiveResult (body : Option Json) : Option GetArchiveResult :=
  match body with
  | some (Json.obj fields) => do
      let id ← strField fields "id"
      let state ← strField fields "state"
      let ty ← strField fields "type"
      pure ⟨id, state, ty⟩
  | some Json.null => some default
  | _ => none

/-- objectPath from the object file. -/
def objectPath (bucketName key : String) : String := bucketName ++ "/" ++ key

/-- Shared shape of the non mapping error branches: the fmt.Errorf result
carrying the message and the raw status code. -/
def genericStatusError (msg : String) (status : Nat) : StorError :=
  StorError.statusError msg status

/-- Shared shape of the bucket operations error branch: try the error
mapper first, fall back to the generic status error. The mapper never
reports a match without an error value, so the fallback also covers
that unreachable pairing. -/
def mapOrStatus (body : Option Json) (msg : String) (status : Nat) : StorError :=
  match mapErrorResponse body with
  | (some e, true) => e
  | _ => genericStatusError msg status

/-- ListBucketsCommand from the bucket file. MaxBuckets is a Go int. -/
structure ListBucketsCommand where
  StartAfter : String
  MaxBuckets : Int
  deriving Repr, DecidableEq, Inhabited

/-- The query ListBuckets builds from its command before issuing the
request: start-after when nonempty, max-buckets when nonzero. -/
def listBucketsQuery (cmd : ListBucketsCommand) : List (String × String) :=
  (if cmd.StartAfter ≠ "" then [("start-after", cmd.StartAfter)] else []) ++
  (if cmd.MaxBuckets ≠ 0 then [("max-buckets", itoa cmd.MaxBuckets)] else [])

/-- The descriptor ListBuckets hands to doReq: the source builds the
query above and then passes a fresh empty descriptor, so the built query
is discarded. -/
def listBucketsReq (cmd : ListBucketsCommand) : R :=
  let _query := listBucketsQuery cmd
  {}

/-- ListBuckets response handling: on a status other than 200 try the
error mapper then fall back; on 200 decode the listing. -/
def listBucketsHandle (res : RawResponse) : Except StorError ListBucketsResult :=
  if res.status ≠ 200 then
    Except.error (mapOrStatus res.body "unable to list buckets" res.status)
  else
    match unmarshalListBucketsResult res.body with
    | none => Except.error (StorError.decodeError "unable to unmarshal response")
    | some r => Except.ok r

/-- CreateBucketCommand from the bucket file (newest revision). -/
structure CreateBucketCommand where
  Name : String
  deriving Repr, DecidableEq, Inhabited

/-- The descriptor CreateBucket hands to doReq. -/
def createBucketReq (cmd : CreateBucketCommand) : R :=
  { method := "PUT", path := cmd.Name }

/-- CreateBucket response handling: success status is 201. -/
def createBucketHandle (res : RawResponse) : Except StorError Bucket :=
  if res.status ≠ 201 then
    Except.error (mapOrStatus res.body "unable to create bucket" res.status)
  else
    match res.body.bind unmarshalBucket with
    | none => Except.error (StorError.decodeError "unable to unmarshal response")
    | some b => Except.ok b

/-- DeleteBucketCommand from the bucket file. -/
structure DeleteBucketCommand where
  Name : String
  deriving Repr, DecidableEq, Inhabited

/-- The descriptor DeleteBucket hands to doReq. -/
def deleteBucketReq (cmd : DeleteBucketCommand) : R :=
  { method := "DELETE", path := cmd.Name }

/-- DeleteBucket response handling: success status is 204, no body. -/
def deleteBucketHandle (res : RawResponse) : Except StorError Unit :=
  if res.status ≠ 204 then
    Except.error (mapOrStatus res.body "unable to delete bucket" res.status)
  else Except.ok ()

/-- CreateObjectCommand from the object file; the data stream is modelled
by an opaque handle. -/
structure CreateObjectCommand where
  Bucket : String
  Key : String
  ContentType : String
  Data : Nat
  IfNoneMatch : Bool
  deriving Repr, DecidableEq, Inhabited

/-- CreateObjectResult from the object file. -/
structure CreateObjectResult where
  ETag : String
  deriving Repr, DecidableEq, Inhabited

/-- The descriptor CreateObject hands to doReq: PUT to the object path,
the conditional header only when IfNoneMatch is set, the content type of
the command, and the caller supplied data stream as body. -/
def createObjectReq (cmd : CreateObjectCommand) : R :=
  { method := "PUT"
    path := objectPath cmd.Bucket cmd.Key
    header := if cmd.IfNoneMatch then [("If-None-Match", "*")] else []
    contentType := cmd.ContentType
    body := some (ReqBody.stream cmd.Data) }

/-- CreateObject response handling: success status is 204; the ETag is
read from the response headers. -/
def createObjectHandle (res : RawResponse) : Except StorError CreateObjectResult :=
  if res.status ≠ 204 then
    Except.error (genericStatusError "unable to create object" res.status)
  else Except.ok ⟨headerGet res.headers "ETag"⟩

/-- CreateMultipartUploadCommand from the object file. -/
structure CreateMultipartUploadCommand where
  Bucket : String
  Key : String
  ContentType : String
  deriving Repr, DecidableEq, Inhabited

/-- The descriptor CreateMultipartUpload hands to doReq. -/
def createMultipartUploadReq (cmd : CreateMultipartUploadCommand) : R :=
  { method := "POST"
    path := objectPath cmd.Bucket cmd.Key
    query := [("uploads", "")]
    contentType := cmd.ContentType }

/-- CreateMultipartUpload response handling: success status is 200. -/
def createMultipartUploadHandle (res : RawResponse) :
    Except StorError CreateMultipartUploadResult :=
  if res.status ≠ 200 then
    Except.error (genericStatusError "unable to create multipart upload" res.status)
  else
    match unmarshalCreateMultipartUploadResult res.body with
    | none => Except.error (StorError.decodeError "unmarshal")
    | some r => Except.ok r

/-- UploadPartCommand from the object file. The data stream is an opaque
handle; the source never forwards it into the descriptor. -/
structure UploadPartCommand where
  Bucket : String
  Key : String
  UploadId : String
  PartNumber : Int
  Data : Nat
  ContentLength : Int
  deriving Repr, DecidableEq, Inhabited

/-- UploadPartResponse from the object file. -/
structure UploadPartResponse where
  ETag : String
  deriving Repr, DecidableEq, Inhabited

/-- The descriptor UploadPart hands to doReq: upload id and part number
as query parameters, the content length of the command, and no body,
exactly as in the source. -/
def uploadPartReq (cmd : UploadPartCommand) : R :=
  { method := "PUT"
    path := objectPath cmd.Bucket cmd.Key
    query := [("upload-id", cmd.UploadId), ("part-number", itoa cmd.PartNumber)]
    contentLength := cmd.ContentLength }

/-- UploadPart response handling: success status is 200. -/
def uploadPartHandle (res : RawResponse) : Except StorError UploadPartResponse :=
  if res.status ≠ 200 then
    Except.error (genericStatusError "unable to upload part" res.status)
  else Except.ok ⟨headerGet res.headers "ETag"⟩

/-- PartReference from the object file, with json tags etag and
partNumber. -/
structure PartReference where
  ETag : String
  PartNumber : Int
  deriving Repr, DecidableEq, Inhabited

/-- Go json.Marshal of one part reference. -/
def marshalPartReference (p : PartReference) : Json :=
  Json.obj [("etag", Json.str p.ETag), ("partNumber", Json.num p.PartNumber)]

/-- CompleteMultipartUploadCommand from the object file. -/
structure CompleteMultipartUploadCommand where
  Bucket : String
  Key : String
  UploadId : String
  IfNoneMatch : Bool
  Parts : List PartReference
  deriving Repr, DecidableEq, Inhabited

/-- Go json.Marshal of completeMultipartUploadRequest, whose single field
carries the json tag parts. -/
def marshalCompleteMultipartUploadRequest (parts : List PartReference) : Json :=
  Json.obj [("parts", Json.arr (parts.map marshalPartReference))]

/-- The descriptor CompleteMultipartUpload hands to doReq. -/
def completeMultipartUploadReq (cmd : CompleteMultipartUploadCommand) : R :=
  { method := "POST"
    path := objectPath cmd.Bucket cmd.Key
    query := [("upload-id", cmd.UploadId)]
    header := if cmd.IfNoneMatch then [("If-None-Match", "*")] else []
    body := some (ReqBody.jsonBody (marshalCompleteMultipartUploadRequest cmd.Parts)) }

/-- CompleteMultipartUpload response handling: success status is 200. -/
def completeMultipartUploadHandle (res : RawResponse) :
    Except StorError CompleteMultipartUploadResult :=
  if res.status ≠ 200 then
    Except.error (genericStatusError "unable to complete upload" res.status)
  else
    match unmarshalCompleteMultipartUploadResult res.body with
    | none => Except.error (StorError.decodeError "unmarshal")
    | some r => Except.ok r

/-- AbortMultipartUploadCommand from the object file. -/
structure AbortMultipartUploadCommand where
  Bucket : String
  Key : String
  UploadId : String
  deriving Repr, DecidableEq, Inhabited

/-- The descriptor AbortMultipartUpload hands to doReq. -/
def abortMultipartUploadReq (cmd : AbortMultipartUploadCommand) : R :=
  { method := "DELETE"
    path := objectPath cmd.Bucket cmd.Key
    query := [("upload-id", cmd.UploadId)] }

/-- AbortMultipartUpload response handling: success status is 204. -/
def abortMultipartUploadHandle (res : RawResponse) : Except StorError Unit :=
  if res.status ≠ 204 then
    Except.error (genericStatusError "unable to abort multipart upload" res.status)
  else Except.ok ()

/-- ListObjectsCommand from the object file. MaxKeys defaults to 1000
when below 1. -/
structure ListObjectsCommand where
  Bucket : String
  StartAfter : String
  MaxKeys : Int
  Delimiter : String
  Prefix : String
  deriving Repr, DecidableEq, Inhabited

/-- The descriptor ListObjects hands to doReq: method left empty (the
executor defaults it to GET), the bucket as path, and the four query
parameters in insertion order, with MaxKeys substituted by 1000 when it
is below 1. -/
def listObjectsReq (cmd : ListObjectsCommand) : R :=
  let maxKeys := if cmd.MaxKeys < 1 then 1000 else cmd.MaxKeys
  { path := cmd.Bucket
    query :=
      [("start-after", cmd.StartAfter), ("max-keys", itoa maxKeys),
       ("delimiter", cmd.Delimiter), ("prefix", cmd.Prefix)] }

/-- ListObjects response handling: success status is 200. -/
def listObjectsHandle (res : RawResponse) : Except StorError ListObjectsResult :=
  if res.status ≠ 200 then
    Except.error (genericStatusError "unable to list objects" res.status)
  else
    match unmarshalListObjectsResult res.body with
    | none => Except.error (StorError.decodeError "unable to unmarshal server response")
    | some r => Except.ok r

/-- ReadObjectResult from the object file: content type, content length
and the open body stream, modelled by its handle. -/
structure ReadObjectResult where
  ContentType : String
  ContentLength : Int
  body : Nat
  deriving Repr, DecidableEq, Inhabited

/-- The descriptor ReadObject builds: only the object path; method and
everything else default. -/
def readObjectReq (bucket key : String) : R :=
  { path := bucket ++ "/" ++ key }

/-- ReadObject response handling, from the object file: a 404 yields the
object not found error, any status other than 200 a generic status
error, and a 200 the open stream with the content type header and the
content length of the response. The body is never decoded. -/
def readObjectHandle (res : RawResponse) : Except StorError ReadObjectResult :=
  if res.status = 404 then Except.error StorError.objectNotFound
  else if res.status ≠ 200 then
    Except.error (genericStatusError "unexpected status code" res.status)
  else
    Except.ok
      ⟨headerGet res.headers "Content-Type", res.contentLength, res.streamId⟩

/-- DeleteObjectsCommand from the object file. -/
structure DeleteObjectsCommand where
  Bucket : String
  Objects : List ObjectReference
  deriving Repr, DecidableEq, Inhabited

/-- Go json.Marshal of one object reference, whose key field carries the
json tag key. -/
def marshalObjectReference (o : ObjectReference) : Json :=
  Json.obj [("key", Json.str o.Key)]

/-- Go json.Marshal of deleteObjectsRequest, whose single field carries
the json tag objects. -/
def marshalDeleteObjectsRequest (objects : List ObjectReference) : Json :=
  Json.obj [("objects", Json.arr (objects.map marshalObjectReference))]

/-- The descriptor DeleteObjects hands to doReq: POST to the bucket path
with the delete query selector, an application/json content type, and
the marshalled list of object references as body. -/
def deleteObjectsReq (cmd : DeleteObjectsCommand) : R :=
  { method := "POST"
    path := cmd.Bucket
    query := [("delete", "")]
    contentType := "application/json"
    body := some (ReqBody.jsonBody (marshalDeleteObjectsRequest cmd.Objects)) }

/-- DeleteObjects response handling: success status is 200; the body is
decoded into the list of per item outcomes. -/
def deleteObjectsHandle (res : RawResponse) : Except StorError DeleteObjectsResult :=
  if res.status ≠ 200 then
    Except.error (genericStatusError "unable to delete objects" res.status)
  else
    match unmarshalDeleteObjectsResult res.body with
    | none => Except.error (StorError.decodeError "unmarshal")
    | some r => Except.ok r

/-- CreateNonceCommand from the nonce file; the TTL is a Go
time.Duration in nanoseconds. -/
structure CreateNonceCommand where
  Bucket : String
  Key : String
  TTL : Int
  deriving Repr, DecidableEq, Inhabited

/-- The descriptor CreateNonce hands to doReq: the nonces query selector
and the TTL converted to whole seconds, truncated toward zero as the Go
conversion through a float64 second count truncates it. -/
def createNonceReq (cmd : CreateNonceCommand) : R :=
  { method := "POST"
    path := objectPath cmd.Bucket cmd.Key
    query := [("nonces", ""), ("ttl", itoa (Int.tdiv cmd.TTL second))] }

/-- CreateNonce response handling: success status is 201. -/
def createNonceHandle (res : RawResponse) : Except StorError CreateNonceResult :=
  if res.status ≠ 201 then
    Except.error (genericStatusError "unable to create nonce" res.status)
  else
    match unmarshalCreateNonceResult res.body with
    | none => Except.error (StorError.decodeError "unmarshal")
    | some r => Except.ok r

/-- CreateArchiveCommand from the archive file. ArchiveType models the
Go field named Type, a name Lean reserves. -/
structure CreateArchiveCommand where
  Bucket : String
  Key : String
  ArchiveType : String
  deriving Repr, DecidableEq, Inhabited

/-- The descriptor CreateArchive hands to doReq: the archives query
selector and the archive type. -/
def createArchiveReq (cmd : CreateArchiveCommand) : R :=
  { method := "POST"
    path := objectPath cmd.Bucket cmd.Key
    query := [("archives", ""), ("type", cmd.ArchiveType)] }

/-- CreateArchive response handling, from the archive file: any status
other than 200 yields only the generic status error; the error mapper is
not consulted. -/
def createArchiveHandle (res : RawResponse) : Except StorError CreateArchiveResult :=
  if res.status ≠ 200 then
    Except.error (genericStatusError "unable to create archive" res.status)
  else
    match unmarshalCreateArchiveResult res.body with
    | none => Except.error (StorError.decodeError "unmarshal")
    | some r => Except.ok r

/-- ArchiveEntry from the archive file, with json tags key and name. -/
structure ArchiveEntry where
  Key : String
  Name : String
  deriving Repr, DecidableEq, Inhabited

/-- Go json.Marshal of one archive entry. -/
def marshalArchiveEntry (e : ArchiveEntry) : Json :=
  Json.obj [("key", Json.str e.Key), ("name", Json.str e.Name)]

/-- AddArchiveEntriesCommand from the archive file. -/
structure AddArchiveEntriesCommand where
  Bucket : String
  Key : String
  ArchiveId : String
  Entries : List ArchiveEntry
  deriving Repr, DecidableEq, Inhabited

/-- Go json.Marshal of addArchiveEntriesRequest: its field carries no
json tag, so the key is the Go field name Entries. -/
def marshalAddArchiveEntriesRequest (entries : List ArchiveEntry) : Json :=
  Json.obj [("Entries", Json.arr (entries.map marshalArchiveEntry))]

/-- The descriptor AddArchiveEntries hands to doReq. -/
def addArchiveEntriesReq (cmd : AddArchiveEntriesCommand) : R :=
  { method := "PUT"
    path := objectPath cmd.Bucket cmd.Key
    query := [("archive-id", cmd.ArchiveId)]
    body := some (ReqBody.jsonBody (marshalAddArchiveEntriesRequest cmd.Entries))
    contentType := "application/json" }

/-- AddArchiveEntries response handling: success status is 200, no
result body. -/
def addArchiveEntriesHandle (res : RawResponse) : Except StorError Unit :=
  if res.status ≠ 200 then
    Except.error (genericStatusError "unable to add archive entries" res.status)
  else Except.ok ()

/-- CompleteArchiveCommand from the archive file. -/
structure CompleteArchiveCommand where
  Bucket : String
  Key : String
  ArchiveId : String
  IfNoneMatch : Bool
  deriving Repr, DecidableEq, Inhabited

/-- The descriptor CompleteArchive hands to doReq: the archive id as
query parameter and the conditional header only when IfNoneMatch is
set. -/
def completeArchiveReq (cmd : CompleteArchiveCommand) : R :=
  { method := "POST"
    path := objectPath cmd.Bucket cmd.Key
    query := [("archive-id", cmd.ArchiveId)]
    header := if cmd.IfNoneMatch then [("If-None-Match", "*")] else [] }

/-- CompleteArchive response handling: success status is 204. -/
def completeArchiveHandle (res : RawResponse) : Except StorError Unit :=
  if res.status ≠ 204 then
    Except.error (genericStatusError "unable to complete archive" res.status)
  else Except.ok ()

/-- AbortArchiveCommand from the archive file. -/
structure AbortArchiveCommand where
  Bucket : String
  Key : String
  ArchiveId : String
  deriving Repr, DecidableEq, Inhabited

/-- The descriptor AbortArchive hands to doReq. -/
def abortArchiveReq (cmd : AbortArchiveCommand) : R :=
  { method := "DELETE"
    path := objectPath cmd.Bucket cmd.Key
    query := [("archive-id", cmd.ArchiveId)] }

/-- AbortArchive response handling: success status is 204. -/
def abortArchiveHandle (res : RawResponse) : Except StorError Unit :=
  if res.status ≠ 204 then
    Except.error (genericStatusError "unable to abort archive" res.status)
  else Except.ok ()

/-- GetArchiveCommand from the archive file. -/
structure GetArchiveCommand where
  Bucket : String
  Key : String
  ArchiveId : String
  deriving Repr, DecidableEq, Inhabited

/-- The descriptor GetArchive hands to doReq; the method is the explicit
GET of the source. -/
def getArchiveReq (cmd : GetArchiveCommand) : R :=
  { method := "GET"
    path := objectPath cmd.Bucket cmd.Key
    query := [("archive-id", cmd.ArchiveId)] }

/-- GetArchive response handling, from the archive file: a 404 yields
the archive not found error, any other status than 200 the generic
status error, and a 200 the decoded archive status. -/
def getArchiveHandle (res : RawResponse) : Except StorError GetArchiveResult :=
  if res.status = 404 then Except.error StorError.archiveNotFound
  else if res.status ≠ 200 then
    Except.error (genericStatusError "unable to get archive" res.status)
  else
    match unmarshalGetArchiveResult res.body with
    | none => Except.error (StorError.decodeError "unable to unmarshal server response")
    | some r => Except.ok r

/-- C1: for every body given to the error mapper, if it decodes as an
error record with code InvalidCredentials, NoSuchArchive, NoSuchBucket or
BucketNotEmpty, mapErrorResponse returns the corresponding domain error
with matched true; when decoding fails, or the code is any other string,
it returns (none, false); it is a total function, so in particular the
absent body yields (none, false) rather than a panic. -/
theorem C1_error_mapper (body : Option Json) :
    (body.bind unmarshalErrorResponse = none → mapErrorResponse body = (none, false)) ∧
    (∀ er : ErrorResponse, body.bind unmarshalErrorResponse = some er →
      (er.Code = "InvalidCredentials" →
        mapErrorResponse body = (some StorError.invalidCredentials, true)) ∧
      (er.Code = "NoSuchArchive" →
        mapErrorResponse body = (some StorError.archiveNotFound, true)) ∧
      (er.Code = "NoSuchBucket" →
        mapErrorResponse body = (some StorError.noSuchBucket, true)) ∧
      (er.Code = "BucketNotEmpty" →
        mapErrorResponse body = (some StorError.bucketNotEmpty, true)) ∧
      (er.Code ≠ "InvalidCredentials" → er.Code ≠ "NoSuchArchive" →
        er.Code ≠ "NoSuchBucket" → er.Code ≠ "BucketNotEmpty" →
        mapErrorResponse body = (none, false))) ∧
    mapErrorResponse none = (none, false) := by
  refine ⟨?_, ?_, rfl⟩
  · intro h
    simp [mapErrorResponse, h]
  · intro er h
    refine ⟨?_, ?_, ?_, ?_, ?_⟩
    · intro h1; simp [mapErrorResponse, h, h1]
    · intro h1; simp [mapErrorResponse, h, h1]
    · intro h1; simp [mapErrorResponse, h, h1]
    · intro h1; simp [mapErrorResponse, h, h1]
    · intro h1 h2 h3 h4; simp [mapErrorResponse, h, h1, h2, h3, h4]

/-- Witness for C1: a concrete body carrying the BucketNotEmpty code is
mapped to the bucket not empty domain error with matched true. -/
theorem C1_error_mapper_witness :
    mapErrorResponse
        (some (Json.obj [("code", Json.str "BucketNotEmpty"), ("message", Json.str "m")])) =
      (some StorError.bucketNotEmpty, true) :=
  ((C1_error_mapper
        (some (Json.obj [("code", Json.str "BucketNotEmpty"), ("message", Json.str "m")]))).2.1
      ⟨"BucketNotEmpty", "m"⟩ (by rfl)).2.2.2.1 rfl

/-- When the error mapper matches, the bucket operations error branch
surfaces the mapped domain error. -/
theorem mapOrStatus_matched (body : Option Json) (msg : String) (st : Nat)
    (e : StorError) (h : mapErrorResponse body = (some e, true)) :
    mapOrStatus body msg st = e := by
  unfold mapOrStatus
  rw [h]

/-- When the error mapper reports no match, the bucket operations error
branch falls back to the generic status error. -/
theorem mapOrStatus_unmatched (body : Option Json) (msg : String) (st : Nat)
    (h : (mapErrorResponse body).2 = false) :
    mapOrStatus body msg st = genericStatusError msg st := by
  unfold mapOrStatus
  cases hm : mapErrorResponse body with
  | mk f s =>
    have hs : s = false := by rw [hm] at h; exact h
    subst hs
    cases f with
    | none => rfl
    | some e => rfl

/-- C2 counterexample: CreateArchive receives a 403 whose body the error
mapper would match to the invalid credentials domain error, yet its
handler returns the generic status error without consulting the mapper,
so not every non streaming operation surfaces the matched domain error. -/
theorem C2_counterexample :
    (mapErrorResponse (some (Json.obj [("code", Json.str "InvalidCredentials")]))).2 = true ∧
    createArchiveHandle
        { status := 403, headers := [], contentLength := 0, streamId := 0,
          body := some (Json.obj [("code", Json.str "InvalidCredentials")]) } =
      Except.error (StorError.statusError "unable to create archive" 403) ∧
    Except.error (StorError.statusError "unable to create archive" 403) ≠
      (Except.error StorError.invalidCredentials :
        Except StorError CreateArchiveResult) := by
  refine ⟨by rfl, by rfl, by simp⟩

/-- C2 amended: only the bucket operations (list, create and delete
bucket) invoke the error mapper on a non success status, surfacing the
matched domain error and otherwise the generic status error; every other
non streaming operation returns the generic status error carrying the
raw status without consulting the mapper, except that GetArchive maps a
404 to the archive not found error first. -/
theorem C2_error_policy :
    (∀ res : RawResponse, ∀ e : StorError, res.status ≠ 200 →
      mapErrorResponse res.body = (some e, true) →
      listBucketsHandle res = Except.error e) ∧
    (∀ res : RawResponse, res.status ≠ 200 → (mapErrorResponse res.body).2 = false →
      listBucketsHandle res =
        Except.error (StorError.statusError "unable to list buckets" res.status)) ∧
    (∀ res : RawResponse, ∀ e : StorError, res.status ≠ 201 →
      mapErrorResponse res.body = (some e, true) →
      createBucketHandle res = Except.error e) ∧
    (∀ res : RawResponse, res.status ≠ 201 → (mapErrorResponse res.body).2 = false →
      createBucketHandle res =
        Except.error (StorError.statusError "unable to create bucket" res.status)) ∧
    (∀ res : RawResponse, ∀ e : StorError, res.status ≠ 204 →
      mapErrorResponse res.body = (some e, true) →
      deleteBucketHandle res = Except.error e) ∧
    (∀ res : RawResponse, res.status ≠ 204 → (mapErrorResponse res.body).2 = false →
      deleteBucketHandle res =
        Except.error (StorError.statusError "unable to delete bucket" res.status)) ∧
    (∀ res : RawResponse, res.status ≠ 204 →
      createObjectHandle res =
        Except.error (StorError.statusError "unable to create object" res.status)) ∧
    (∀ res : RawResponse, res.status ≠ 200 →
      createMultipartUploadHandle res =
        Except.error (StorError.statusError "unable to create multipart upload" res.status)) ∧
    (∀ res : RawResponse, res.status ≠ 200 →
      uploadPartHandle res =
        Except.error (StorError.statusError "unable to upload part" res.status)) ∧
    (∀ res : RawResponse, res.status ≠ 200 →
      completeMultipartUploadHandle res =
        Except.error (StorError.statusError "unable to complete upload" res.status)) ∧
    (∀ res : RawResponse, res.status ≠ 204 →
      abortMultipartUploadHandle res =
        Except.error (StorError.statusError "unable to abort multipart upload" res.status)) ∧
    (∀ res : RawResponse, res.status ≠ 200 →
      listObjectsHandle res =
        Except.error (StorError.statusError "unable to list objects" res.status)) ∧
    (∀ res : RawResponse, res.status ≠ 200 →
      deleteObjectsHandle res =
        Except.error (StorError.statusError "unable to delete objects" res.status)) ∧
    (∀ res : RawResponse, res.status ≠ 201 →
      createNonceHandle res =
        Except.error (StorError.statusError "unable to create nonce" res.status)) ∧
    (∀ res : RawResponse, res.status ≠ 200 →
      createArchiveHandle res =
        Except.error (StorError.statusError "unable to create archive" res.status)) ∧
    (∀ res : RawResponse, res.status ≠ 200 →
      addArchiveEntriesHandle res =
        Except.error (StorError.statusError "unable to add archive entries" res.status)) ∧
    (∀ res : RawResponse, res.status ≠ 204 →
      completeArchiveHandle res =
        Except.error (StorError.statusError "unable to complete archive" res.status)) ∧
    (∀ res : RawResponse, res.status ≠ 204 →
      abortArchiveHandle res =
        Except.error (StorError.statusError "unable to abort archive" res.status)) ∧
    (∀ res : RawResponse, res.status = 404 →
      getArchiveHandle res = Except.error StorError.archiveNotFound) ∧
    (∀ res : RawResponse, res.status ≠ 200 → res.status ≠ 404 →
      getArchiveHandle res =
        Except.error (StorError.statusError "unable to get archive" res.status)) := by
  refine ⟨?_, ?_, ?_, ?_, ?_, ?_, ?_, ?_, ?_, ?_, ?_, ?_, ?_, ?_, ?_, ?_, ?_, ?_, ?_, ?_⟩
  · intro res e h hm
    simp [listBucketsHandle, h, mapOrStatus_matched res.body _ _ e hm]
  · intro res h hm
    simp [listBucketsHandle, h, mapOrStatus_unmatched res.body _ _ hm, genericStatusError]
  · intro res e h hm
    simp [createBucketHandle, h, mapOrStatus_matched res.body _ _ e hm]
  · intro res h hm
    simp [createBucketHandle, h, mapOrStatus_unmatched res.body _ _ hm, genericStatusError]
  · intro res e h hm
    simp [deleteBucketHandle, h, mapOrStatus_matched res.body _ _ e hm]
  · intro res h hm
    simp [deleteBucketHandle, h, mapOrStatus_unmatched res.body _ _ hm, genericStatusError]
  · intro res h
    simp [createObjectHandle, h, genericStatusError]
  · intro res h
    simp [createMultipartUploadHandle, h, genericStatusError]
  · intro res h
    simp [uploadPartHandle, h, genericStatusError]
  · intro res h
    simp [completeMultipartUploadHandle, h, genericStatusError]
  · intro res h
    simp [abortMultipartUploadHandle, h, genericStatusError]
  · intro res h
    simp [listObjectsHandle, h, genericStatusError]
  · intro res h
    simp [deleteObjectsHandle, h, genericStatusError]
  · intro res h
    simp [createNonceHandle, h, genericStatusError]
  · intro res h
    simp [createArchiveHandle, h, genericStatusError]
  · intro res h
    simp [addArchiveEntriesHandle, h, genericStatusError]
  · intro res h
    simp [completeArchiveHandle, h, genericStatusError]
  · intro res h
    simp [abortArchiveHandle, h, genericStatusError]
  · intro res h
    simp [getArchiveHandle, h]
  · intro res h h4
    simp [getArchiveHandle, h, h4, genericStatusError]

/-- Witness for C2: ListBuckets on a 500 whose body carries the
NoSuchBucket code surfaces the mapped domain error. -/
theorem C2_error_policy_witness :
    listBucketsHandle
        { status := 500, headers := [], contentLength := 0, streamId := 0,
          body := some (Json.obj [("code", Json.str "NoSuchBucket")]) } =
      Except.error StorError.noSuchBucket :=
  C2_error_policy.1
    { status := 500, headers := [], contentLength := 0, streamId := 0,
      body := some (Json.obj [("code", Json.str "NoSuchBucket")]) }
    StorError.noSuchBucket (by decide) (by rfl)

/-- C3 counterexample: a descriptor whose extra header set itself carries
a Content-Type pair produces a request carrying a Content-Type header even
though the contentType field of the descriptor is empty, so the built
request does not carry Content-Type exactly when the field is set. -/
theorem C3_counterexample :
    (({ header := [("Content-Type", "text/plain")] } : R).contentType = "") ∧
    ("Content-Type", "text/plain") ∈
      (createReq
          (NewClient [{ Host := "h", ApiKey := "k", HTTPCLient := 0, Timeout := none }]
            (fun _ => 0)).1
          { header := [("Content-Type", "text/plain")] }).headers := by
  refine ⟨rfl, ?_⟩
  simp [createReq, NewClient]

/-- C3 amended: for every client built by NewClient and every descriptor
whose extra header set contains no Content-Type or Content-Length pair
(as holds for every descriptor this library builds), the request carries
an Authorization header equal to Bearer followed by the configured
credential, carries a Content-Type header exactly when the contentType
field is nonempty, and carries a Content-Length header exactly when the
contentLength field is nonzero. -/
theorem C3_headers (opt : ClientOptions) (w : HttpWorld) (r : R)
    (h : ∀ p ∈ r.header, p.1 ≠ "Content-Type" ∧ p.1 ≠ "Content-Length") :
    (("Authorization", "Bearer " ++ opt.ApiKey) ∈
      (createReq (NewClient [opt] w).1 r).headers) ∧
    ((∃ v, ("Content-Type", v) ∈ (createReq (NewClient [opt] w).1 r).headers) ↔
      r.contentType ≠ "") ∧
    ((∃ v, ("Content-Length", v) ∈ (createReq (NewClient [opt] w).1 r).headers) ↔
      r.contentLength ≠ 0) := by
  refine ⟨?_, ?_, ?_⟩
  · simp [createReq, NewClient]
  · constructor
    · rintro ⟨v, hv⟩
      simp only [createReq, NewClient, List.mem_append, List.mem_singleton,
        List.mem_cons] at hv
      rcases hv with ((h1 | h1) | h1) | h1
      · simp at h1
      · by_cases hc : r.contentType = "" <;> simp [hc] at h1 ⊢
      · by_cases hc : r.contentLength = 0 <;> simp [hc] at h1
      · exact absurd rfl ((h _ h1).1)
    · intro hc
      exact ⟨r.contentType, by simp [createReq, NewClient, hc]⟩
  · constructor
    · rintro ⟨v, hv⟩
      simp only [createReq, NewClient, List.mem_append, List.mem_singleton,
        List.mem_cons] at hv
      rcases hv with ((h1 | h1) | h1) | h1
      · simp at h1
      · by_cases hc : r.contentType = "" <;> simp [hc] at h1
      · by_cases hc : r.contentLength = 0 <;> simp [hc] at h1 ⊢
      · exact absurd rfl ((h _ h1).2)
    · intro hc
      exact ⟨itoa r.contentLength, by simp [createReq, NewClient, hc]⟩

/-- Witness for C3: a concrete client and descriptor with a set content
type and length; the built request carries the Bearer header and both
content headers, matching the nonzero fields. -/
theorem C3_headers_witness :
    (("Authorization", "Bearer k") ∈
      (createReq
          (NewClient [{ Host := "h", ApiKey := "k", HTTPCLient := 0, Timeout := none }]
            (fun _ => 0)).1
          { contentType := "application/json", contentLength := 7 }).headers) ∧
    ((∃ v, ("Content-Type", v) ∈
      (createReq
          (NewClient [{ Host := "h", ApiKey := "k", HTTPCLient := 0, Timeout := none }]
            (fun _ => 0)).1
          { contentType := "application/json", contentLength := 7 }).headers) ↔
      ("application/json" : String) ≠ "") :=
  ⟨(C3_headers { Host := "h", ApiKey := "k", HTTPCLient := 0, Timeout := none } (fun _ => 0)
      { contentType := "application/json", contentLength := 7 } (by simp)).1,
   (C3_headers { Host := "h", ApiKey := "k", HTTPCLient := 0, Timeout := none } (fun _ => 0)
      { contentType := "application/json", contentLength := 7 } (by simp)).2.1⟩

/-- C4: the URL of the built request is host, slash, path, with a
question mark and the encoded query appended exactly when the descriptor
carries at least one query parameter, and the method is the method of
the descriptor, defaulting to GET when that is empty. -/
theorem C4_url_and_method (c : Client) (r : R) :
    ((createReq c r).url =
      c.host ++ "/" ++ r.path ++
        (if r.query = [] then "" else "?" ++ encodeQuery r.query)) ∧
    ((createReq c r).method = if r.method = "" then "GET" else r.method) := by
  refine ⟨?_, rfl⟩
  cases hq : r.query with
  | nil => simp [createReq, hq]
  | cons p ps => simp [createReq, hq, String.append_assoc]

/-- C5: ReadObject maps a 404 to the object not found error without
looking at the body, returns on a 200 the open stream together with the
content type header and content length of the response, and returns a
generic status error for every other status. -/
theorem C5_read_object (res : RawResponse) :
    (res.status = 404 → readObjectHandle res = Except.error StorError.objectNotFound) ∧
    (res.status = 200 →
      readObjectHandle res =
        Except.ok ⟨headerGet res.headers "Content-Type", res.contentLength, res.streamId⟩) ∧
    (res.status ≠ 404 → res.status ≠ 200 →
      readObjectHandle res =
        Except.error (StorError.statusError "unexpected status code" res.status)) := by
  refine ⟨?_, ?_, ?_⟩
  · intro h
    simp [readObjectHandle, h]
  · intro h
    simp [readObjectHandle, h]
  · intro h4 h2
    simp [readObjectHandle, h4, h2, genericStatusError]

/-- Witness for C5: a concrete 404 response yields the object not found
error, and a concrete 200 response yields the open stream. -/
theorem C5_read_object_witness :
    readObjectHandle ⟨404, [], 0, 3, none⟩ = Except.error StorError.objectNotFound ∧
    readObjectHandle ⟨200, [("Content-Type", "text/plain")], 5, 3, none⟩ =
      Except.ok ⟨"text/plain", 5, 3⟩ :=
  ⟨(C5_read_object ⟨404, [], 0, 3, none⟩).1 rfl,
   (C5_read_object ⟨200, [("Content-Type", "text/plain")], 5, 3, none⟩).2.1 rfl⟩

/-- C6: object creation, multipart completion and archive completion
carry the If-None-Match star header exactly when the IfNoneMatch field
of the command is set, and the descriptor of every other operation
carries an empty extra header set, so no other operation sends the
header. -/
theorem C6_if_none_match :
    (∀ cmd : CreateObjectCommand,
      (("If-None-Match", "*") ∈ (createObjectReq cmd).header) ↔ cmd.IfNoneMatch = true) ∧
    (∀ cmd : CompleteMultipartUploadCommand,
      (("If-None-Match", "*") ∈ (completeMultipartUploadReq cmd).header) ↔
        cmd.IfNoneMatch = true) ∧
    (∀ cmd : CompleteArchiveCommand,
      (("If-None-Match", "*") ∈ (completeArchiveReq cmd).header) ↔
        cmd.IfNoneMatch = true) ∧
    (∀ cmd : ListBucketsCommand, (listBucketsReq cmd).header = []) ∧
    (∀ cmd : CreateBucketCommand, (createBucketReq cmd).header = []) ∧
    (∀ cmd : DeleteBucketCommand, (deleteBucketReq cmd).header = []) ∧
    (∀ cmd : CreateMultipartUploadCommand, (createMultipartUploadReq cmd).header = []) ∧
    (∀ cmd : UploadPartCommand, (uploadPartReq cmd).header = []) ∧
    (∀ cmd : AbortMultipartUploadCommand, (abortMultipartUploadReq cmd).header = []) ∧
    (∀ cmd : ListObjectsCommand, (listObjectsReq cmd).header = []) ∧
    (∀ bucket key : String, (readObjectReq bucket key).header = []) ∧
    (∀ cmd : DeleteObjectsCommand, (deleteObjectsReq cmd).header = []) ∧
    (∀ cmd : CreateNonceCommand, (createNonceReq cmd).header = []) ∧
    (∀ cmd : CreateArchiveCommand, (createArchiveReq cmd).header = []) ∧
    (∀ cmd : AddArchiveEntriesCommand, (addArchiveEntriesReq cmd).header = []) ∧
    (∀ cmd : AbortArchiveCommand, (abortArchiveReq cmd).header = []) ∧
    (∀ cmd : GetArchiveCommand, (getArchiveReq cmd).header = []) := by
  refine ⟨?_, ?_, ?_, fun _ => rfl, fun _ => rfl, fun _ => rfl, fun _ => rfl,
    fun _ => rfl, fun _ => rfl, fun _ => rfl, fun _ _ => rfl, fun _ => rfl,
    fun _ => rfl, fun _ => rfl, fun _ => rfl, fun _ => rfl, fun _ => rfl⟩
  · intro cmd
    cases h : cmd.IfNoneMatch <;> simp [createObjectReq, h]
  · intro cmd
    cases h : cmd.IfNoneMatch <;> simp [completeMultipartUploadReq, h]
  · intro cmd
    cases h : cmd.IfNoneMatch <;> simp [completeArchiveReq, h]

/-- C7: the max-keys query parameter of ListObjects carries 1000 when
MaxKeys is below 1 and the given value otherwise; it is the only
max-keys pair of the query, and the encoded query string of the
scenario with MaxKeys zero is spelled out. -/
theorem C7_max_keys (cmd : ListObjectsCommand) :
    (cmd.MaxKeys < 1 → ("max-keys", "1000") ∈ (listObjectsReq cmd).query) ∧
    (1 ≤ cmd.MaxKeys → ("max-keys", itoa cmd.MaxKeys) ∈ (listObjectsReq cmd).query) ∧
    (∀ v, ("max-keys", v) ∈ (listObjectsReq cmd).query →
      v = itoa (if cmd.MaxKeys < 1 then 1000 else cmd.MaxKeys)) ∧
    encodeQuery (listObjectsReq ⟨"b1", "", 0, "", ""⟩).query =
      "delimiter=&max-keys=1000&prefix=&start-after=" := by
  have h1000 : itoa 1000 = "1000" := by decide
  refine ⟨?_, ?_, ?_, by rfl⟩
  · intro h
    simp [listObjectsReq, h, h1000]
  · intro h
    have h4 : ¬ cmd.MaxKeys < 1 := not_lt.mpr h
    simp [listObjectsReq, h4]
  · intro v hv
    simp [listObjectsReq] at hv
    by_cases h : cmd.MaxKeys < 1 <;> simp [h] at hv ⊢ <;> exact hv

/-- Witness for C7: the scenario command with MaxKeys zero sends the
default max-keys value 1000. -/
theorem C7_max_keys_witness :
    ("max-keys", "1000") ∈ (listObjectsReq ⟨"b1", "", 0, "", ""⟩).query :=
  (C7_max_keys ⟨"b1", "", 0, "", ""⟩).1 (by decide)

/-- C8: the DeleteObjects request body is the JSON object whose objects
field lists the object references of the command in order, each as an
object with one key field; a results array of per item outcomes decodes
to the per item result list in order; the handler returns the decoded
result on a 200; and the concrete two item scenario with one failed
deletion decodes to two entries, one deleted and one carrying an error. -/
theorem C8_delete_objects (cmd : DeleteObjectsCommand) :
    ((deleteObjectsReq cmd).body =
      some (ReqBody.jsonBody
        (Json.obj [("objects",
          Json.arr (cmd.Objects.map (fun o => Json.obj [("key", Json.str o.Key)])))]))) ∧
    (∀ items : List (String × Bool),
      unmarshalDeleteObjectsResult
          (some (Json.obj [("results",
            Json.arr (items.map (fun kv =>
              Json.obj [("key", Json.str kv.1), ("deleted", Json.bool kv.2)])))])) =
        some ⟨items.map (fun kv => ⟨kv.1, kv.2, none⟩)⟩) ∧
    (∀ res : RawResponse, res.status = 200 → ∀ r : DeleteObjectsResult,
      unmarshalDeleteObjectsResult res.body = some r →
      deleteObjectsHandle res = Except.ok r) ∧
    deleteObjectsHandle ⟨200, [], 0, 0,
        some (Json.obj [("results", Json.arr
          [Json.obj [("key", Json.str "a"), ("deleted", Json.bool true)],
           Json.obj [("key", Json.str "b"), ("deleted", Json.bool false),
             ("error", Json.obj [("code", Json.str "X"), ("message", Json.str "m")])]])])⟩ =
      Except.ok ⟨[⟨"a", true, none⟩, ⟨"b", false, some ⟨"X", "m"⟩⟩]⟩ := by
  refine ⟨rfl, ?_, ?_, by rfl⟩
  · intro items
    have main :
        (items.map (fun kv =>
            Json.obj [("key", Json.str kv.1), ("deleted", Json.bool kv.2)])).mapM
            unmarshalDeleteResult =
          some (items.map (fun kv => (⟨kv.1, kv.2, none⟩ : DeleteResult))) := by
      induction items with
      | nil => rfl
      | cons p ps ih =>
        simp only [List.map_cons, List.mapM_cons, ih]
        rfl
    have hstep : ∀ X : Json,
        unmarshalDeleteObjectsResult (some (Json.obj [("results", X)])) =
          (decodeList unmarshalDeleteResult X).bind (fun rs => some ⟨rs⟩) :=
      fun _ => rfl
    have hd : decodeList unmarshalDeleteResult
        (Json.arr (items.map (fun kv =>
          Json.obj [("key", Json.str kv.1), ("deleted", Json.bool kv.2)]))) =
        some (items.map (fun kv => (⟨kv.1, kv.2, none⟩ : DeleteResult))) := by
      simpa [decodeList] using main
    rw [hstep, hd]
    rfl
  · intro res h r hr
    simp [deleteObjectsHandle, h, hr]

/-- Witness for C8: the handler applied to the concrete 200 response of
the scenario returns the decoded per item outcomes. -/
theorem C8_delete_objects_witness :
    deleteObjectsHandle ⟨200, [],
        0, 0, some (Json.obj [("results", Json.arr [Json.obj [("key", Json.str "a"),
          ("deleted", Json.bool true)]])])⟩ =
      Except.ok ⟨[⟨"a", true, none⟩]⟩ :=
  (C8_delete_objects ⟨"b1", []⟩).2.2.1
    ⟨200, [], 0, 0, some (Json.obj [("results", Json.arr [Json.obj [("key", Json.str "a"),
      ("deleted", Json.bool true)]])])⟩
    rfl ⟨[⟨"a", true, none⟩]⟩ (by rfl)

/-- C9: ListBuckets hands the empty descriptor to the executor whatever
the command: the query its source builds from StartAfter and MaxBuckets
is discarded, so any two commands yield the identical HTTP request, and
the result is independent of both fields. -/
theorem C9_list_buckets_request_constant :
    (∀ cmd : ListBucketsCommand, listBucketsReq cmd = {}) ∧
    (∀ cmd : ListBucketsCommand, (listBucketsReq cmd).query = []) ∧
    (∀ cmd1 cmd2 : ListBucketsCommand, listBucketsReq cmd1 = listBucketsReq cmd2) ∧
    (∀ cmd1 cmd2 : ListBucketsCommand, ∀ c : Client,
      createReq c (listBucketsReq cmd1) = createReq c (listBucketsReq cmd2)) :=
  ⟨fun _ => rfl, fun _ => rfl, fun _ _ => rfl, fun _ _ _ => rfl⟩

/-- C10: NewClient writes the Timeout field of the HTTP client named by
the supplied options on every invocation, to the configured timeout when
one is set and to 30 seconds otherwise; invoked without options it
builds default options, whose handle is the process wide shared default
client, so the timeout of that global client changes as a side effect
whenever it was not already 30 seconds. -/
theorem C10_new_client_timeout (opt : ClientOptions) (w : HttpWorld) :
    ((NewClient [opt] w).2 opt.HTTPCLient =
      (match opt.Timeout with
       | some t => t
       | none => 30 * second)) ∧
    ((NewClient [] w).2 defaultClientHandle = 30 * second) ∧
    (w defaultClientHandle ≠ 30 * second →
      (NewClient [] w).2 defaultClientHandle ≠ w defaultClientHandle) := by
  refine ⟨?_, ?_, ?_⟩
  · simp [NewClient]
  · simp [NewClient, NewClientOptions, defaultClientHandle]
  · intro h
    simp only [NewClient, NewClientOptions, defaultClientHandle, if_pos rfl]
    exact fun hc => h hc.symm

/-- Witness for C10: starting from a world where every timeout is zero,
building a client from no options sets the default client timeout to 30
seconds, changing it. -/
theorem C10_new_client_timeout_witness :
    (NewClient [] (fun _ => 0)).2 defaultClientHandle = 30 * second ∧
    (NewClient [] (fun _ => 0)).2 defaultClientHandle ≠
      (fun _ => (0 : Int)) defaultClientHandle :=
  ⟨(C10_new_client_timeout ⟨"", "", 0, none⟩ (fun _ => 0)).2.1,
   (C10_new_client_timeout ⟨"", "", 0, none⟩ (fun _ => 0)).2.2 (by decide)⟩

end StorClient
